import Mathlib

/-!
Verification development for the anti-fraud transaction monitoring system.

The definitions below are a shallow embedding of the backend routes that
handle detection rules, alerts and cases:

* `testRule`      embeds `router.post('/:id/test')` of the rules route
  (rule backtesting over historical transactions);
* `createRule`, `deleteRule` embed `router.post('/')` and
  `router.delete('/:id')` of the rules route;
* `createAlert`, `updateAlert` embed `router.post('/')` and
  `router.put('/:id')` of the alerts route;
* `linkAlertToCase`, `createCase` embed `router.post('/:id/alerts')` and
  `router.post('/')` of the cases route.

The database is modelled as an explicit state (`DB`); SQL queries become
list operations, and JavaScript truthiness checks on optional condition
fields (`if (conditions.minAmount)` and similar) are modelled explicitly.
-/

namespace AFTMS

/-- Alert lifecycle status, from the `alerts` table CHECK constraint. -/
inductive AlertStatus where
  | new
  | investigating
  | escalated
  | closed
  | falsePositive
deriving DecidableEq, Repr

/-- Severity levels shared by rules and alerts. -/
inductive Severity where
  | low
  | medium
  | high
  | critical
deriving DecidableEq, Repr

/-- Detection rule types, from the `detection_rules` table CHECK constraint. -/
inductive RuleType where
  | amount
  | frequency
  | pattern
  | location
  | velocity
deriving DecidableEq, Repr

/-- A row of the `transactions` table (the fields the rule engine reads). -/
structure Transaction where
  id : Nat
  amount : ℚ
  currency : String
  transactionType : String
  channel : String
  fromAccountId : Nat
  locationCountry : Option String
  processedAt : Int
deriving DecidableEq, Repr

/-- The JSONB `conditions` blob of a detection rule.  Every field is
optional, exactly as in the Joi `ruleSchema` of the rules route, which
uses one shared schema for all rule types. -/
structure RuleConditions where
  minAmount : Option ℚ := none
  maxAmount : Option ℚ := none
  currency : Option String := none
  transactionCount : Option Nat := none
  timeWindow : Option String := none
  transactionTypes : Option (List String) := none
  channels : Option (List String) := none
  roundAmounts : Option Bool := none
  blockedCountries : Option (List String) := none
  timeZoneMismatch : Option Bool := none
  velocityThreshold : Option ℚ := none
  velocityWindow : Option String := none
deriving DecidableEq, Repr

/-- A row of the `detection_rules` table. -/
structure Rule where
  id : Nat
  name : String
  ruleType : RuleType
  conditions : RuleConditions
  severity : Severity
  isActive : Bool
deriving DecidableEq, Repr

/-- A row of the `alerts` table (the fields the routes touch). -/
structure Alert where
  id : Nat
  transactionId : Nat
  ruleId : Option Nat
  customerId : Option Nat
  alertType : String
  severity : Severity
  status : AlertStatus
  assignedTo : Option Nat
deriving DecidableEq, Repr

/-- A row of the `accounts` table (only the lookup used by alert creation). -/
structure Account where
  id : Nat
  customerId : Nat
deriving DecidableEq, Repr

/-- A row of the `cases` table (the fields case creation writes). -/
structure Case where
  id : Nat
  title : String
  description : String
  caseType : String
  priority : String
  assignedTo : Option Nat
  createdBy : Nat
deriving DecidableEq, Repr

/-- The database state: the tables the embedded routes read and write,
plus the SERIAL counters for generated primary keys.  `caseAlerts` is
the `case_alerts` association table as a list of (case id, alert id)
pairs; its UNIQUE(case_id, alert_id) constraint and the foreign key to
`alerts` are enforced in the operations that insert into it. -/
structure DB where
  transactions : List Transaction := []
  accounts : List Account := []
  rules : List Rule := []
  alerts : List Alert := []
  cases : List Case := []
  caseAlerts : List (Nat × Nat) := []
  nextAlertId : Nat := 1
  nextCaseId : Nat := 1
  nextRuleId : Nat := 1
deriving DecidableEq, Repr

/-- JavaScript truthiness of an optional numeric condition field:
`if (conditions.minAmount)` is taken only when the field is present and
nonzero. -/
def truthyQ : Option ℚ → Bool
  | Option.none => false
  | Option.some q => q != 0

/-- JavaScript truthiness of an optional string field: present and
nonempty. -/
def truthyStr : Option String → Bool
  | Option.none => false
  | Option.some s => s != ""

/-- JavaScript truthiness of an optional boolean field. -/
def truthyBool : Option Bool → Bool
  | Option.none => false
  | Option.some b => b

/-- The date-range filter `processed_at >= $1 AND processed_at <= $2`
shared by every branch of the backtest query. -/
def inDateRange (s e : Int) (t : Transaction) : Bool :=
  decide (s ≤ t.processedAt) && decide (t.processedAt ≤ e)

/-- Amount-rule filter of the backtest route: bounds are appended only
when truthy, currency equality only when a currency is set.  The route
adds no clause for `transactionTypes`. -/
def amountCond (c : RuleConditions) (t : Transaction) : Bool :=
  (if truthyQ c.minAmount then decide (c.minAmount.getD 0 ≤ t.amount) else true) &&
  (if truthyQ c.maxAmount then decide (t.amount ≤ c.maxAmount.getD 0) else true) &&
  (if truthyStr c.currency then t.currency == c.currency.getD "" else true)

/-- The frequency threshold `conditions.transactionCount || 10`. -/
def freqThreshold (c : RuleConditions) : Nat :=
  match c.transactionCount with
  | Option.some n => if n != 0 then n else 10
  | Option.none => 10

/-- The per-account transaction count of the backtest CTE: transactions
of one source account inside the outer date range. -/
def accountTxnCount (txns : List Transaction) (s e : Int) (acct : Nat) : Nat :=
  (txns.filter (fun u => inDateRange s e u && u.fromAccountId == acct)).length

/-- The `frequent_accounts` CTE: source accounts whose transaction count
inside [s, e] reaches the threshold (GROUP BY + HAVING). -/
def frequentAccounts (txns : List Transaction) (s e : Int) (thr : Nat) : List Nat :=
  (((txns.filter (inDateRange s e)).map Transaction.fromAccountId).dedup).filter
    (fun acct => decide (thr ≤ accountTxnCount txns s e acct))

/-- The frequency branch of the backtest: join transactions in range
with the frequent accounts. -/
def frequencyRows (txns : List Transaction) (s e : Int) (thr : Nat) : List Transaction :=
  txns.filter (fun t => inDateRange s e t && (frequentAccounts txns s e thr).contains t.fromAccountId)

/-- The SQL predicate `amount % 1000 = 0` on a numeric amount: the
amount is an integer multiple of 1000. -/
def roundThousand (a : ℚ) : Bool := (a / 1000).den == 1

/-- Pattern-rule filter of the backtest route. -/
def patternCond (c : RuleConditions) (t : Transaction) : Bool :=
  (match c.transactionTypes with
   | Option.some l => if l.length != 0 then l.contains t.transactionType else true
   | Option.none => true) &&
  (match c.channels with
   | Option.some l => if l.length != 0 then l.contains t.channel else true
   | Option.none => true) &&
  (if truthyBool c.roundAmounts then roundThousand t.amount else true)

/-- Location-rule filter of the backtest route: `location_country =
ANY(blockedCountries)` when the list is present and nonempty; a NULL
country never matches the ANY clause. -/
def locationCond (c : RuleConditions) (t : Transaction) : Bool :=
  match c.blockedCountries with
  | Option.some l =>
      if l.length != 0 then
        match t.locationCountry with
        | Option.some cc => l.contains cc
        | Option.none => false
      else true
  | Option.none => true

/-- The ORDER BY key of the backtest: `processed_at DESC`. -/
def procDesc (a b : Transaction) : Prop := b.processedAt ≤ a.processedAt

instance : DecidableRel procDesc :=
  fun a b => inferInstanceAs (Decidable (b.processedAt ≤ a.processedAt))

instance : IsTotal Transaction procDesc :=
  ⟨fun a b => le_total b.processedAt a.processedAt⟩

instance : IsTrans Transaction procDesc :=
  ⟨fun _ _ _ h1 h2 => le_trans h2 h1⟩

/-- The trailing `ORDER BY processed_at DESC LIMIT $n` of the backtest
query. -/
def orderAndLimit (l : List Transaction) (limit : Nat) : List Transaction :=
  (l.insertionSort procDesc).take limit

/-- Body of a backtest request. The route defaults `limit` to 100 and
performs no validation on the date range. -/
structure TestReq where
  startDate : Int
  endDate : Int
  limit : Nat := 100
deriving DecidableEq, Repr

/-- Responses of the backtest route: 404 when the rule id does not
resolve, 400 for a rule type with no test branch, otherwise the matches
with their trigger reason. -/
inductive TestResp where
  | ruleNotFound
  | unsupportedType
  | ok (reason : String) (rows : List Transaction)
deriving DecidableEq, Repr

/-- The switch on `rule.rule_type` of the backtest route, producing the
trigger reason and the unordered row set; `velocity` falls to the
default branch (unsupported). -/
def ruleRows (db : DB) (r : Rule) (req : TestReq) : Option (String × List Transaction) :=
  match r.ruleType with
  | RuleType.amount =>
      Option.some ("Amount threshold exceeded",
        db.transactions.filter (fun t =>
          inDateRange req.startDate req.endDate t && amountCond r.conditions t))
  | RuleType.frequency =>
      Option.some ("High frequency transactions",
        frequencyRows db.transactions req.startDate req.endDate (freqThreshold r.conditions))
  | RuleType.pattern =>
      Option.some ("Pattern match detected",
        db.transactions.filter (fun t =>
          inDateRange req.startDate req.endDate t && patternCond r.conditions t))
  | RuleType.location =>
      Option.some ("Suspicious location detected",
        db.transactions.filter (fun t =>
          inDateRange req.startDate req.endDate t && locationCond r.conditions t))
  | RuleType.velocity => Option.none

/-- The backtest route `router.post('/:id/test')`: load the rule, build
the per-type query, order most-recent-first and truncate to the limit.
The route only reads; the returned state is the input state. -/
def testRule (db : DB) (ruleId : Nat) (req : TestReq) : TestResp × DB :=
  match db.rules.find? (fun r => r.id == ruleId) with
  | Option.none => (TestResp.ruleNotFound, db)
  | Option.some r =>
      match ruleRows db r req with
      | Option.none => (TestResp.unsupportedType, db)
      | Option.some (reason, rows) => (TestResp.ok reason (orderAndLimit rows req.limit), db)

/-- Body of the manual alert-creation route `router.post('/')` of the
alerts route, after Joi validation (`createAlertSchema`). -/
structure CreateAlertReq where
  transactionId : Nat
  alertType : String
  severity : Severity
  description : String
  ruleId : Option Nat := none
deriving DecidableEq, Repr

/-- Responses of the alert-creation route. -/
inductive CreateAlertResp where
  | transactionNotFound
  | created (a : Alert)
deriving DecidableEq, Repr

/-- Number of alerts referencing one (rule, transaction) pair. -/
def pairCount (alerts : List Alert) (rid : Option Nat) (tid : Nat) : Nat :=
  (alerts.filter (fun a => a.ruleId == rid && a.transactionId == tid)).length

/-- The alert row the creation route inserts: customer resolved through
the transaction's source account, status left to the column default
`new`, auto-assigned to the creator. -/
def newAlertOf (db : DB) (req : CreateAlertReq) (userId : Nat) (t : Transaction) : Alert :=
  { id := db.nextAlertId
    transactionId := req.transactionId
    ruleId := req.ruleId
    customerId := (db.accounts.find? (fun acc => acc.id == t.fromAccountId)).map Account.customerId
    alertType := req.alertType
    severity := req.severity
    status := AlertStatus.new
    assignedTo := Option.some userId }

/-- The alert-creation route: verify the transaction exists, look up the
customer through the source account, and insert a new alert row.  The
route performs no duplicate check for the (rule, transaction) pair, and
the `alerts` table has no unique constraint on it. -/
def createAlert (db : DB) (req : CreateAlertReq) (userId : Nat) : CreateAlertResp × DB :=
  match db.transactions.find? (fun t => t.id == req.transactionId) with
  | Option.none => (CreateAlertResp.transactionNotFound, db)
  | Option.some t =>
      (CreateAlertResp.created (newAlertOf db req userId t),
        { db with alerts := db.alerts ++ [newAlertOf db req userId t],
                  nextAlertId := db.nextAlertId + 1 })

/-- Body of the alert-update route `router.put('/:id')`, after Joi
validation (`updateAlertSchema`): every field optional, statuses drawn
from the full status enum with no transition restriction. -/
structure UpdateAlertReq where
  status : Option AlertStatus := none
  assignedTo : Option (Option Nat) := none
  notes : Option String := none
  resolution : Option String := none
deriving DecidableEq, Repr

/-- Responses of the alert-update route.  `sqlError` models the aborted
UPDATE when the request names the `notes` or `resolution` field, which
the `alerts` table does not have. -/
inductive UpdateAlertResp where
  | alertNotFound
  | noFields
  | sqlError
  | updated (a : Alert)
deriving DecidableEq, Repr

/-- The alert-update route: look the alert up, then apply whatever
fields the request carries.  The requested status overwrites the current
one unconditionally — the route never consults the current status. -/
def updateAlert (db : DB) (id : Nat) (req : UpdateAlertReq) : UpdateAlertResp × DB :=
  match db.alerts.find? (fun a => a.id == id) with
  | Option.none => (UpdateAlertResp.alertNotFound, db)
  | Option.some a =>
      if req.status.isNone && req.assignedTo.isNone && req.notes.isNone && req.resolution.isNone then
        (UpdateAlertResp.noFields, db)
      else if req.notes.isSome || req.resolution.isSome then
        (UpdateAlertResp.sqlError, db)
      else
        let a2 : Alert :=
          { a with
              status := req.status.getD a.status
              assignedTo := req.assignedTo.getD a.assignedTo }
        (UpdateAlertResp.updated a2,
          { db with alerts := db.alerts.map (fun x => if x.id == id then a2 else x) })

/-- The UPDATE statement shared by both case-linkage paths:
`UPDATE alerts SET status = 'investigating' WHERE id = alertId`, with no
condition on the current status. -/
def setAlertStatus (alerts : List Alert) (id : Nat) (s : AlertStatus) : List Alert :=
  alerts.map (fun a => if a.id == id then { a with status := s } else a)

/-- Responses of the link-alert-to-case route `router.post('/:id/alerts')`. -/
inductive LinkResp where
  | caseNotFound
  | alertNotFound
  | conflict
  | linked
deriving DecidableEq, Repr

/-- The link-alert-to-case route: verify case and alert exist, insert
the association (unique violation becomes a 409 conflict, leaving state
unchanged), then set the alert status to `investigating`
unconditionally. -/
def linkAlertToCase (db : DB) (caseId alertId : Nat) : LinkResp × DB :=
  match db.cases.find? (fun c => c.id == caseId) with
  | Option.none => (LinkResp.caseNotFound, db)
  | Option.some _ =>
      match db.alerts.find? (fun a => a.id == alertId) with
      | Option.none => (LinkResp.alertNotFound, db)
      | Option.some _ =>
          if db.caseAlerts.contains (caseId, alertId) then (LinkResp.conflict, db)
          else
            (LinkResp.linked,
              { db with
                  caseAlerts := db.caseAlerts ++ [(caseId, alertId)]
                  alerts := setAlertStatus db.alerts alertId AlertStatus.investigating })

/-- Body of the case-creation route `router.post('/')` of the cases
route, after Joi validation (`createCaseSchema`). -/
structure CreateCaseReq where
  title : String
  description : String
  caseType : String
  priority : String := "medium"
  assignedTo : Option Nat := none
  estimatedLoss : Option ℚ := none
  alertIds : Option (List Nat) := none
deriving DecidableEq, Repr

/-- Responses of the case-creation route.  `rolledBack` models the
caught exception path: ROLLBACK and rethrow. -/
inductive CreateCaseResp where
  | rolledBack
  | created (c : Case)
deriving DecidableEq, Repr

/-- The case row the route inserts. -/
def newCaseOf (db : DB) (req : CreateCaseReq) (userId : Nat) : Case :=
  { id := db.nextCaseId
    title := req.title
    description := req.description
    caseType := req.caseType
    priority := req.priority
    assignedTo := req.assignedTo
    createdBy := userId }

/-- The alert-association loop of case creation.  Each iteration inserts
into `case_alerts` — failing on the UNIQUE(case_id, alert_id) constraint
or on the foreign key to `alerts` — and then sets the alert status to
`investigating` unconditionally.  A failure raises, so the loop result
is `none` and the surrounding transaction rolls back. -/
def linkAlertsLoop (db : DB) (caseId : Nat) : List Nat → Option DB
  | [] => Option.some db
  | aid :: rest =>
      if db.caseAlerts.contains (caseId, aid) then Option.none
      else if db.alerts.all (fun a => a.id != aid) then Option.none
      else
        linkAlertsLoop
          { db with
              caseAlerts := db.caseAlerts ++ [(caseId, aid)]
              alerts := setAlertStatus db.alerts aid AlertStatus.investigating }
          caseId rest

/-- The state right after the case INSERT, before alert association. -/
def caseInsertedDB (db : DB) (req : CreateCaseReq) (userId : Nat) : DB :=
  { db with cases := db.cases ++ [newCaseOf db req userId], nextCaseId := db.nextCaseId + 1 }

/-- The case-creation route: BEGIN, insert the case, loop over the
provided alert ids, COMMIT; any failure in the loop triggers ROLLBACK,
restoring the original state. -/
def createCase (db : DB) (req : CreateCaseReq) (userId : Nat) : CreateCaseResp × DB :=
  match req.alertIds with
  | Option.none => (CreateCaseResp.created (newCaseOf db req userId), caseInsertedDB db req userId)
  | Option.some ids =>
      if ids.length != 0 then
        match linkAlertsLoop (caseInsertedDB db req userId) (newCaseOf db req userId).id ids with
        | Option.none => (CreateCaseResp.rolledBack, db)
        | Option.some db2 => (CreateCaseResp.created (newCaseOf db req userId), db2)
      else (CreateCaseResp.created (newCaseOf db req userId), caseInsertedDB db req userId)

/-- Body of the rule-creation route `router.post('/')` of the rules
route, before validation: the rule type arrives as a raw string and the
conditions as the shared optional-field record. -/
structure CreateRuleReq where
  name : String
  description : Option String := none
  ruleType : String
  conditions : RuleConditions
  severity : Severity := Severity.medium
  isActive : Bool := true
deriving DecidableEq, Repr

/-- The `ruleType` Joi check: one of the five valid type strings. -/
def parseRuleType (s : String) : Option RuleType :=
  if s == "amount" then Option.some RuleType.amount
  else if s == "frequency" then Option.some RuleType.frequency
  else if s == "pattern" then Option.some RuleType.pattern
  else if s == "location" then Option.some RuleType.location
  else if s == "velocity" then Option.some RuleType.velocity
  else Option.none

/-- The Joi `timeWindow` membership check. -/
def validWindow (s : String) : Bool :=
  s == "1h" || s == "24h" || s == "7d" || s == "30d"

/-- The Joi `velocityWindow` membership check. -/
def validVelocityWindow (s : String) : Bool :=
  s == "1h" || s == "24h" || s == "7d"

/-- The Joi validation of the `conditions` object: per-field checks
only, every field optional.  The schema is shared by all rule types and
never relates a field's presence to the rule's declared type. -/
def conditionsValid (c : RuleConditions) : Bool :=
  (match c.minAmount with | Option.some q => decide (0 ≤ q) | Option.none => true) &&
  (match c.maxAmount with | Option.some q => decide (0 ≤ q) | Option.none => true) &&
  (match c.currency with | Option.some s => s.length == 3 | Option.none => true) &&
  (match c.transactionCount with | Option.some n => decide (1 ≤ n) | Option.none => true) &&
  (match c.timeWindow with | Option.some w => validWindow w | Option.none => true) &&
  (match c.blockedCountries with
   | Option.some l => l.all (fun s => s.length == 2)
   | Option.none => true) &&
  (match c.velocityThreshold with | Option.some q => decide (0 ≤ q) | Option.none => true) &&
  (match c.velocityWindow with | Option.some w => validVelocityWindow w | Option.none => true)

/-- The full Joi `ruleSchema` validation of a rule-creation body. -/
def ruleReqValid (req : CreateRuleReq) : Bool :=
  decide (3 ≤ req.name.length) && decide (req.name.length ≤ 100) &&
  (parseRuleType req.ruleType).isSome &&
  (match req.description with | Option.some d => decide (d.length ≤ 500) | Option.none => true) &&
  conditionsValid req.conditions

/-- Responses of the rule-creation route. -/
inductive CreateRuleResp where
  | invalid
  | nameConflict
  | created (r : Rule)
deriving DecidableEq, Repr

/-- The rule-creation route: Joi validation, uniqueness check on the
name, then insert; the rule becomes active (by default) immediately. -/
def createRule (db : DB) (req : CreateRuleReq) : CreateRuleResp × DB :=
  if !ruleReqValid req then (CreateRuleResp.invalid, db)
  else
    match parseRuleType req.ruleType with
    | Option.none => (CreateRuleResp.invalid, db)
    | Option.some rt =>
        if db.rules.any (fun r => r.name == req.name) then (CreateRuleResp.nameConflict, db)
        else
          let r : Rule :=
            { id := db.nextRuleId
              name := req.name
              ruleType := rt
              conditions := req.conditions
              severity := req.severity
              isActive := req.isActive }
          (CreateRuleResp.created r,
            { db with rules := db.rules ++ [r], nextRuleId := db.nextRuleId + 1 })

/-- Responses of the rule-deletion route `router.delete('/:id')`. -/
inductive DeleteRuleResp where
  | ruleNotFound
  | hasAlerts (alertCount : Nat)
  | deleted
deriving DecidableEq, Repr

/-- The rule-deletion route: 404 when the id does not resolve; when any
alert references the rule, refuse with the alert count and leave the
catalog unchanged; otherwise delete the rule row. -/
def deleteRule (db : DB) (ruleId : Nat) : DeleteRuleResp × DB :=
  match db.rules.find? (fun r => r.id == ruleId) with
  | Option.none => (DeleteRuleResp.ruleNotFound, db)
  | Option.some _ =>
      if 0 < (db.alerts.filter (fun a => a.ruleId == Option.some ruleId)).length then
        (DeleteRuleResp.hasAlerts (db.alerts.filter (fun a => a.ruleId == Option.some ruleId)).length,
          db)
      else (DeleteRuleResp.deleted, { db with rules := db.rules.filter (fun r => r.id != ruleId) })

/-- Helper to read the status of the alert with a given id. -/
def alertStatusOf (db : DB) (aid : Nat) : Option AlertStatus :=
  (db.alerts.find? (fun a => a.id == aid)).map Alert.status

/-- Spec-side amount predicate, following the amended claim's words: the
amount respects every present (and, per the implementation's truthiness
check, nonzero) bound, and the currency equals every present nonempty
rule currency.  To be compared with the implementation's `amountCond`. -/
def amountSpecMatch (c : RuleConditions) (t : Transaction) : Prop :=
  (∀ m, c.minAmount = Option.some m → m ≠ 0 → m ≤ t.amount) ∧
  (∀ m, c.maxAmount = Option.some m → m ≠ 0 → t.amount ≤ m) ∧
  (∀ cur, c.currency = Option.some cur → cur ≠ "" → t.currency = cur)

/-- Spec-side definition following the claim's words for Frequency
rules: the count of transactions sharing the transaction's source
account within the trailing window [t.processedAt - window,
t.processedAt].  Used only to exhibit the divergence between the claim
and the backtest's whole-range aggregate. -/
def specTrailingCount (txns : List Transaction) (t : Transaction) (window : Int) : Nat :=
  (txns.filter (fun u =>
    u.fromAccountId == t.fromAccountId &&
    decide (t.processedAt - window ≤ u.processedAt) &&
    decide (u.processedAt ≤ t.processedAt))).length

/-! Concrete fixtures used by the counterexample and witness theorems. -/

/-- A 15000 NZD transfer, processed at time 50. -/
def t6 : Transaction :=
  { id := 1, amount := 15000, currency := "NZD", transactionType := "transfer",
    channel := "online", fromAccountId := 1, locationCountry := none, processedAt := 50 }

/-- An amount rule whose conditions carry a `transactionTypes` list. -/
def rule6 : Rule :=
  { id := 1, name := "Large NZD deposits", ruleType := RuleType.amount,
    conditions := { minAmount := some 10000, currency := some "NZD",
                    transactionTypes := some ["deposit"] },
    severity := Severity.high, isActive := true }

/-- State for the amount-rule backtest counterexample. -/
def db6 : DB := { transactions := [t6], rules := [rule6] }

/-- A backtest request covering processing times 0 to 100. -/
def req6 : TestReq := { startDate := 0, endDate := 100, limit := 10 }

/-- The minimal amount-rule conditions of the spec's testable property:
minAmount 10000, currency NZD. -/
def nzdConditions : RuleConditions := { minAmount := some 10000, currency := some "NZD" }

/-- First of two transactions of one account, 25 hours apart. -/
def tEarly : Transaction :=
  { id := 1, amount := 100, currency := "NZD", transactionType := "transfer",
    channel := "online", fromAccountId := 1, locationCountry := none, processedAt := 0 }

/-- Second transaction of the same account, 25 hours later. -/
def tLate : Transaction := { tEarly with id := 2, processedAt := 25 }

/-- A frequency rule requiring 2 transactions inside a 24h window. -/
def rule7 : Rule :=
  { id := 1, name := "High frequency", ruleType := RuleType.frequency,
    conditions := { transactionCount := some 2, timeWindow := some "24h" },
    severity := Severity.medium, isActive := true }

/-- State for the frequency-rule backtest counterexample. -/
def db7 : DB := { transactions := [tEarly, tLate], rules := [rule7] }

/-- A plain amount rule with a small threshold. -/
def rule9 : Rule :=
  { id := 1, name := "Any amount", ruleType := RuleType.amount,
    conditions := { minAmount := some 10 }, severity := Severity.low, isActive := true }

/-- State for the reversed-date-range counterexample: the rule would
match `t6` under a sane range. -/
def db9 : DB := { transactions := [t6], rules := [rule9] }

/-- A backtest request whose endDate lies before its startDate. -/
def req9 : TestReq := { startDate := 100, endDate := 0, limit := 10 }

/-- State for the alert-emission counterexample: one transaction, no
alerts yet. -/
def dbC1 : DB := { transactions := [t6] }

/-- A rule-based alert-creation request for transaction 1 and rule 1. -/
def reqC1 : CreateAlertReq :=
  { transactionId := 1, alertType := "rule_based", severity := Severity.high,
    description := "dup emission", ruleId := some 1 }

/-- The state after the first emission for the (rule 1, transaction 1)
pair. -/
def dbC1b : DB := (createAlert dbC1 reqC1 7).2

/-- The alert the second emission inserts. -/
def alertC1second : Alert :=
  { id := 2, transactionId := 1, ruleId := some 1, customerId := none,
    alertType := "rule_based", severity := Severity.high, status := AlertStatus.new,
    assignedTo := some 7 }

/-- A closed alert. -/
def alertC2 : Alert :=
  { id := 1, transactionId := 1, ruleId := some 1, customerId := none,
    alertType := "rule_based", severity := Severity.high, status := AlertStatus.closed,
    assignedTo := none }

/-- State holding only the closed alert. -/
def dbC2 : DB := { alerts := [alertC2] }

/-- An analyst update request moving the status back to `new`. -/
def updC2 : UpdateAlertReq := { status := some AlertStatus.new }

/-- An open investigation case. -/
def caseC3 : Case :=
  { id := 1, title := "Case A", description := "desc", caseType := "fraud",
    priority := "high", assignedTo := none, createdBy := 7 }

/-- State with the closed alert and an existing case, not yet linked. -/
def dbC3 : DB := { alerts := [alertC2], cases := [caseC3] }

/-- State for the case-creation counterexample: one existing alert. -/
def dbC4 : DB := { alerts := [alertC2] }

/-- A case-creation request listing one resolvable and one nonexistent
alert id. -/
def reqC4 : CreateCaseReq :=
  { title := "Fraud ring", description := "desc", caseType := "fraud",
    alertIds := some [1, 99] }

/-- A location-rule creation request with an empty condition set. -/
def reqC5 : CreateRuleReq := { name := "Loc", ruleType := "location", conditions := {} }

/-- The rule the route inserts for `reqC5` on an empty catalog. -/
def ruleC5 : Rule :=
  { id := 1, name := "Loc", ruleType := RuleType.location, conditions := {},
    severity := Severity.medium, isActive := true }

/-- Predicate: some alert row carries the given id. -/
def hasAlertId (alerts : List Alert) (x : Nat) : Prop := ∃ a ∈ alerts, a.id = x

instance (alerts : List Alert) (x : Nat) : Decidable (hasAlertId alerts x) :=
  inferInstanceAs (Decidable (∃ a ∈ alerts, a.id = x))

/-- A rule-creation request of type location with an empty condition
set. -/
def locationReqOf (nm : String) : CreateRuleReq :=
  { name := nm, ruleType := "location", conditions := {} }

/-- A 10000 NZD deposit. -/
def t10000 : Transaction :=
  { id := 3, amount := 10000, currency := "NZD", transactionType := "deposit",
    channel := "branch", fromAccountId := 2, locationCountry := none, processedAt := 10 }

/-- A 9999.99 NZD deposit. -/
def t9999 : Transaction := { t10000 with id := 4, amount := 999999/100 }

/-- A large deposit in a different currency. -/
def tUsd : Transaction := { t10000 with id := 5, currency := "USD", amount := 20000 }

/-- State for the delete-rule witness: rule 1 has one referencing alert. -/
def dbC10 : DB := { rules := [rule6], alerts := [alertC2] }

/-- A case-creation request whose single alert id resolves. -/
def reqC4ok : CreateCaseReq :=
  { title := "Small case", description := "desc", caseType := "aml",
    alertIds := some [1] }

/-- The rule row created for a location rule with empty conditions. -/
def locationRuleOf (db : DB) (nm : String) : Rule :=
  { id := db.nextRuleId, name := nm, ruleType := RuleType.location,
    conditions := {}, severity := Severity.medium, isActive := true }

end AFTMS

namespace AFTMS

/-! Helper lemmas. -/

/-- The backtest tail clause on an empty row set. -/
theorem orderAndLimit_nil (n : Nat) : orderAndLimit [] n = [] := by
  simp [orderAndLimit]

/-- The LIMIT clause bounds the result length. -/
theorem orderAndLimit_length_le (l : List Transaction) (n : Nat) :
    (orderAndLimit l n).length ≤ n := by
  simp only [orderAndLimit, List.length_take]
  exact min_le_left _ _

/-- The ORDER BY clause sorts the result most-recent-first. -/
theorem orderAndLimit_sorted (l : List Transaction) (n : Nat) :
    List.Sorted procDesc (orderAndLimit l n) :=
  List.Pairwise.sublist (List.take_sublist _ _) (List.sorted_insertionSort procDesc l)

/-- With a reversed range, no transaction passes the date filter. -/
theorem inDateRange_false {s e : Int} (h : e < s) (t : Transaction) :
    inDateRange s e t = false := by
  simp only [inDateRange, Bool.and_eq_false_iff, decide_eq_false_iff_not]
  omega

/-- With a reversed range, every backtest filter is empty. -/
theorem filter_range_nil {s e : Int} (h : e < s) (txns : List Transaction)
    (p : Transaction → Bool) :
    txns.filter (fun t => inDateRange s e t && p t) = [] := by
  rw [List.filter_eq_nil_iff]
  intro a _
  simp [inDateRange_false h]

/-- The truthy minAmount clause of the backtest, as a quantified
condition on the optional field. -/
theorem truthy_min_iff (o : Option ℚ) (x : ℚ) :
    ((if truthyQ o then decide (o.getD 0 ≤ x) else true) = true) ↔
      (∀ m, o = Option.some m → m ≠ 0 → m ≤ x) := by
  cases o with
  | none => simp [truthyQ]
  | some m =>
      by_cases hm : m = 0
      · subst hm; simp [truthyQ]
      · simp [truthyQ, hm, decide_eq_true_eq]

/-- The truthy maxAmount clause of the backtest, as a quantified
condition on the optional field. -/
theorem truthy_max_iff (o : Option ℚ) (x : ℚ) :
    ((if truthyQ o then decide (x ≤ o.getD 0) else true) = true) ↔
      (∀ m, o = Option.some m → m ≠ 0 → x ≤ m) := by
  cases o with
  | none => simp [truthyQ]
  | some m =>
      by_cases hm : m = 0
      · subst hm; simp [truthyQ]
      · simp [truthyQ, hm, decide_eq_true_eq]

/-- Truthy currency clause of the backtest, as a quantified condition on
the optional field. -/
theorem truthy_currency_iff (o : Option String) (cur : String) :
    ((if truthyStr o then cur == o.getD "" else true) = true) ↔
      (∀ s, o = Option.some s → s ≠ "" → cur = s) := by
  cases o with
  | none => simp [truthyStr]
  | some s =>
      by_cases hs : s = ""
      · subst hs; simp [truthyStr]
      · simp [truthyStr, hs]

/-- The status-update statement leaves alert ids unchanged. -/
theorem hasAlertId_setAlertStatus (alerts : List Alert) (id x : Nat) (s : AlertStatus) :
    hasAlertId (setAlertStatus alerts id s) x ↔ hasAlertId alerts x := by
  simp only [hasAlertId, setAlertStatus, List.mem_map]
  constructor
  · rintro ⟨a2, ⟨a, ha, rfl⟩, hid⟩
    refine ⟨a, ha, ?_⟩
    by_cases h : (a.id == id) <;> simpa [h] using hid
  · rintro ⟨a, ha, hid⟩
    by_cases h : (a.id == id)
    · exact ⟨{ a with status := s }, ⟨a, ha, by simp [h]⟩, hid⟩
    · exact ⟨a, ⟨a, ha, by simp [h]⟩, hid⟩

/-- Unfolding of the status-update statement on a cons cell. -/
theorem setAlertStatus_cons (a : Alert) (rest : List Alert) (id : Nat) (s : AlertStatus) :
    setAlertStatus (a :: rest) id s =
      (if a.id == id then { a with status := s } else a) :: setAlertStatus rest id s := rfl

/-- After the status-update statement, the first row with the target id
carries the new status. -/
theorem find?_setAlertStatus_self (alerts : List Alert) (id : Nat) (s : AlertStatus)
    (h : hasAlertId alerts id) :
    ((setAlertStatus alerts id s).find? (fun a => a.id == id)).map Alert.status =
      Option.some s := by
  induction alerts with
  | nil => rcases h with ⟨a, ha, _⟩; cases ha
  | cons a rest ih =>
      rw [setAlertStatus_cons]
      by_cases hid : a.id = id
      · rw [if_pos (by simp [hid]), List.find?_cons_of_pos _ (by simp [hid])]
        rfl
      · rw [if_neg (by simp [hid]), List.find?_cons_of_neg _ (by simp [hid])]
        apply ih
        rcases h with ⟨b, hb, hbid⟩
        rcases List.mem_cons.mp hb with rfl | hmem
        · exact absurd hbid hid
        · exact ⟨b, hmem, hbid⟩

/-- The status-update statement does not touch rows with other ids. -/
theorem find?_setAlertStatus_other (alerts : List Alert) (id : Nat) (s : AlertStatus)
    (x : Nat) (h : x ≠ id) :
    (setAlertStatus alerts id s).find? (fun a => a.id == x) =
      alerts.find? (fun a => a.id == x) := by
  induction alerts with
  | nil => rfl
  | cons a rest ih =>
      rw [setAlertStatus_cons]
      by_cases hax : a.id = x
      · have haid : ¬ (a.id = id) := by rw [hax]; exact h
        rw [if_neg (by simp [haid]), List.find?_cons_of_pos _ (by simp [hax]),
          List.find?_cons_of_pos _ (by simp [hax])]
      · by_cases haid : a.id = id
        · rw [if_pos (by simp [haid]),
            List.find?_cons_of_neg _ (by simp [hax]),
            List.find?_cons_of_neg _ (by simp [hax])]
          exact ih
        · rw [if_neg (by simp [haid]),
            List.find?_cons_of_neg _ (by simp [hax]),
            List.find?_cons_of_neg _ (by simp [hax])]
          exact ih

/-- Unfolding of the association loop on a cons cell. -/
theorem linkAlertsLoop_cons (db : DB) (c a0 : Nat) (rest : List Nat) :
    linkAlertsLoop db c (a0 :: rest) =
      if db.caseAlerts.contains (c, a0) then Option.none
      else if db.alerts.all (fun a => a.id != a0) then Option.none
      else
        linkAlertsLoop
          { db with
              caseAlerts := db.caseAlerts ++ [(c, a0)]
              alerts := setAlertStatus db.alerts a0 AlertStatus.investigating }
          c rest := rfl

/-- The association loop only ever appends to `case_alerts`. -/
theorem linkAlertsLoop_caseAlerts_mono :
    ∀ (ids : List Nat) (db : DB) (c : Nat) (db2 : DB),
      linkAlertsLoop db c ids = Option.some db2 →
      ∀ p, p ∈ db.caseAlerts → p ∈ db2.caseAlerts := by
  intro ids
  induction ids with
  | nil =>
      intro db c db2 h p hp
      cases h
      exact hp
  | cons a0 rest ih =>
      intro db c db2 h p hp
      rw [linkAlertsLoop_cons] at h
      by_cases hc : db.caseAlerts.contains (c, a0) = true
      · rw [if_pos hc] at h; cases h
      · rw [if_neg hc] at h
        by_cases hall : db.alerts.all (fun a => a.id != a0) = true
        · rw [if_pos hall] at h; cases h
        · rw [if_neg hall] at h
          exact ih _ c db2 h p (List.mem_append_left _ hp)

/-- A nonexistent alert id anywhere in the list makes the association
loop fail on the foreign key to `alerts`, so it produces no state. -/
theorem linkAlertsLoop_none_of_missing :
    ∀ (ids : List Nat) (db : DB) (c aid : Nat), aid ∈ ids → ¬ hasAlertId db.alerts aid →
      linkAlertsLoop db c ids = Option.none := by
  intro ids
  induction ids with
  | nil => intro db c aid h; cases h
  | cons a0 rest ih =>
      intro db c aid hmem hmiss
      rw [linkAlertsLoop_cons]
      by_cases hc : db.caseAlerts.contains (c, a0) = true
      · rw [if_pos hc]
      · rw [if_neg hc]
        rcases List.mem_cons.mp hmem with rfl | hmem'
        · have hall : db.alerts.all (fun a => a.id != aid) = true := by
            rw [List.all_eq_true]
            intro a ha
            simp only [bne_iff_ne, ne_eq]
            exact fun he => hmiss ⟨a, ha, he⟩
          rw [if_pos hall]
        · by_cases hall : db.alerts.all (fun a => a.id != a0) = true
          · rw [if_pos hall]
          · rw [if_neg hall]
            apply ih _ c aid hmem'
            intro hhas
            exact hmiss ((hasAlertId_setAlertStatus db.alerts a0 aid
              AlertStatus.investigating).mp hhas)

/-- When every listed alert id resolves, the ids are pairwise distinct
and none is already linked, the association loop succeeds: it preserves
the case table, links every id to the case, and sets every listed
alert's status to `investigating` while leaving other alerts' statuses
alone. -/
theorem linkAlertsLoop_success :
    ∀ (ids : List Nat) (db : DB) (c : Nat),
      (∀ aid ∈ ids, hasAlertId db.alerts aid) →
      ids.Nodup →
      (∀ aid ∈ ids, (c, aid) ∉ db.caseAlerts) →
      ∃ db2, linkAlertsLoop db c ids = Option.some db2 ∧
        db2.cases = db.cases ∧
        (∀ aid ∈ ids, (c, aid) ∈ db2.caseAlerts) ∧
        (∀ aid ∈ ids, alertStatusOf db2 aid = Option.some AlertStatus.investigating) ∧
        (∀ x, x ∉ ids → alertStatusOf db2 x = alertStatusOf db x) := by
  intro ids
  induction ids with
  | nil =>
      intro db c _ _ _
      exact ⟨db, rfl, rfl, by simp, by simp, fun x _ => rfl⟩
  | cons a0 rest ih =>
      intro db c hhas hnodup hfresh
      have hc : ¬ db.caseAlerts.contains (c, a0) = true := by
        intro h
        exact hfresh a0 (List.mem_cons_self _ _) (List.elem_iff.mp h)
      have hex : hasAlertId db.alerts a0 := hhas a0 (List.mem_cons_self _ _)
      have hall : ¬ db.alerts.all (fun a => a.id != a0) = true := by
        intro h
        rcases hex with ⟨a, ha, haid⟩
        have := List.all_eq_true.mp h a ha
        simp only [bne_iff_ne, ne_eq] at this
        exact this haid
      have hstep : linkAlertsLoop db c (a0 :: rest) =
          linkAlertsLoop
            { db with
                caseAlerts := db.caseAlerts ++ [(c, a0)]
                alerts := setAlertStatus db.alerts a0 AlertStatus.investigating }
            c rest := by
        rw [linkAlertsLoop_cons, if_neg hc, if_neg hall]
      set db' : DB :=
        { db with
            caseAlerts := db.caseAlerts ++ [(c, a0)]
            alerts := setAlertStatus db.alerts a0 AlertStatus.investigating } with hdb'
      have hnodup' : rest.Nodup := (List.nodup_cons.mp hnodup).2
      have ha0rest : a0 ∉ rest := (List.nodup_cons.mp hnodup).1
      have hhas' : ∀ aid ∈ rest, hasAlertId db'.alerts aid := by
        intro aid hm
        exact (hasAlertId_setAlertStatus db.alerts a0 aid AlertStatus.investigating).mpr
          (hhas aid (List.mem_cons_of_mem _ hm))
      have hfresh' : ∀ aid ∈ rest, (c, aid) ∉ db'.caseAlerts := by
        intro aid hm hmem
        rcases List.mem_append.mp hmem with h1 | h2
        · exact hfresh aid (List.mem_cons_of_mem _ hm) h1
        · have : aid = a0 := congrArg Prod.snd (List.mem_singleton.mp h2)
          exact ha0rest (this ▸ hm)
      rcases ih db' c hhas' hnodup' hfresh' with
        ⟨db2, hloop, hcases, hlinked, hstatus, hother⟩
      refine ⟨db2, by rw [hstep]; exact hloop, by rw [hcases], ?_, ?_, ?_⟩
      · intro aid hm
        rcases List.mem_cons.mp hm with rfl | hm'
        · have hpre : (c, aid) ∈ db'.caseAlerts := by
            simp [hdb']
          -- the loop only appends to caseAlerts; recover membership from db'
          have : ∀ x, x ∉ rest → alertStatusOf db2 x = alertStatusOf db' x := hother
          -- membership in db'.caseAlerts is preserved because the loop appends
          exact linkAlertsLoop_caseAlerts_mono rest db' c db2 hloop _ hpre
        · exact hlinked aid hm'
      · intro aid hm
        rcases List.mem_cons.mp hm with rfl | hm'
        · rw [hother aid ha0rest]
          show (db'.alerts.find? (fun a => a.id == aid)).map Alert.status = _
          exact find?_setAlertStatus_self db.alerts aid AlertStatus.investigating hex
        · exact hstatus aid hm'
      · intro x hx
        have hx0 : x ≠ a0 := fun he => hx (he ▸ List.mem_cons_self _ _)
        have hxr : x ∉ rest := fun hm => hx (List.mem_cons_of_mem _ hm)
        rw [hother x hxr]
        show (db'.alerts.find? (fun a => a.id == x)).map Alert.status = _
        rw [find?_setAlertStatus_other db.alerts a0 AlertStatus.investigating x hx0]
        rfl

/-- The backtest route performs no writes: the state it returns is the
state it was given. -/
theorem testRule_state_id (db : DB) (rid : Nat) (req : TestReq) :
    (testRule db rid req).2 = db := by
  unfold testRule
  split
  · rfl
  · split
    · rfl
    · rfl

/-- With a reversed date range, every branch of the backtest query
produces an empty row set. -/
theorem ruleRows_reversed_range_nil (db : DB) (r : Rule) (req : TestReq)
    (hlt : req.endDate < req.startDate) (reason : String) (rows : List Transaction)
    (h : ruleRows db r req = Option.some (reason, rows)) : rows = [] := by
  obtain ⟨rid0, nm, rt, conds, sev, act⟩ := r
  cases rt with
  | amount =>
      simp only [ruleRows] at h
      cases h
      exact filter_range_nil hlt _ _
  | frequency =>
      simp only [ruleRows] at h
      cases h
      exact filter_range_nil hlt _ _
  | pattern =>
      simp only [ruleRows] at h
      cases h
      exact filter_range_nil hlt _ _
  | location =>
      simp only [ruleRows] at h
      cases h
      exact filter_range_nil hlt _ _
  | velocity =>
      simp only [ruleRows] at h
      exact Option.noConfusion h

/-! Claim theorems. -/

/-- C8: for every backtest of a supported rule over a date range with a
limit, the result contains at most `limit` matches, ordered
most-recent-first by processed timestamp, and no alert (indeed no state
change at all) is created by the backtest: it is read-only. -/
theorem backtest_limit_order_readonly :
    ∀ (db : DB) (rid : Nat) (req : TestReq),
      (testRule db rid req).2 = db ∧
      ∀ reason rows, (testRule db rid req).1 = TestResp.ok reason rows →
        rows.length ≤ req.limit ∧ List.Sorted procDesc rows := by
  intro db rid req
  refine ⟨testRule_state_id db rid req, ?_⟩
  intro reason rows h
  unfold testRule at h
  split at h
  · cases h
  · split at h
    · cases h
    · cases h
      exact ⟨orderAndLimit_length_le _ _, orderAndLimit_sorted _ _⟩

/-- Witness for C8: the backtest of the amount rule of `db6` returns the
single matching transaction, within the limit, sorted, and leaves the
state untouched. -/
theorem backtest_limit_order_readonly_witness :
    (testRule db6 1 req6).2 = db6 ∧
    ([t6].length ≤ req6.limit ∧ List.Sorted procDesc [t6]) :=
  ⟨(backtest_limit_order_readonly db6 1 req6).1,
   (backtest_limit_order_readonly db6 1 req6).2 "Amount threshold exceeded" [t6] (by decide)⟩

/-- C9 (amended): a backtest whose endDate lies before its startDate is
not rejected with a validation error; the route runs normally, leaves
the state unchanged, any successful response carries an empty match
list, and for an existing rule of a supported type the outcome is
exactly a normal empty-match response. -/
theorem backtest_reversed_range_empty :
    ∀ (db : DB) (rid : Nat) (req : TestReq), req.endDate < req.startDate →
      (testRule db rid req).2 = db ∧
      (∀ reason rows, (testRule db rid req).1 = TestResp.ok reason rows → rows = []) ∧
      (∀ r, db.rules.find? (fun x => x.id == rid) = Option.some r →
        r.ruleType ≠ RuleType.velocity →
        ∃ reason, (testRule db rid req).1 = TestResp.ok reason []) := by
  intro db rid req hlt
  refine ⟨testRule_state_id db rid req, ?_, ?_⟩
  · intro reason rows h
    unfold testRule at h
    split at h
    · cases h
    · rename_i r hf
      split at h
      · cases h
      · rename_i reason0 rows0 hr
        cases h
        rw [ruleRows_reversed_range_nil db r req hlt _ rows0 hr]
        exact orderAndLimit_nil _
  · intro r hf hvel
    have hrows : ∀ reason rows, ruleRows db r req = Option.some (reason, rows) →
        (testRule db rid req).1 = TestResp.ok reason [] := by
      intro reason rows hr
      simp only [testRule, hf, hr]
      have hnil := ruleRows_reversed_range_nil db r req hlt reason rows hr
      subst hnil
      rw [orderAndLimit_nil]
    obtain ⟨rid0, nm, rt, conds, sev, act⟩ := r
    cases rt with
    | amount => exact ⟨_, hrows _ _ rfl⟩
    | frequency => exact ⟨_, hrows _ _ rfl⟩
    | pattern => exact ⟨_, hrows _ _ rfl⟩
    | location => exact ⟨_, hrows _ _ rfl⟩
    | velocity => exact absurd rfl hvel

/-- Counterexample for C9 as stated: with endDate before startDate the
route does not fail with a validation error; it returns a normal,
empty, successful result even though a transaction and a matching rule
exist. -/
theorem reversed_range_normal_result_counterexample :
    req9.endDate < req9.startDate ∧
    (testRule db9 1 req9).1 = TestResp.ok "Amount threshold exceeded" [] := by
  exact ⟨by decide, by decide⟩

/-- Witness for C9: the amended behaviour at the concrete reversed-range
request of `db9`. -/
theorem backtest_reversed_range_empty_witness :
    (testRule db9 1 req9).2 = db9 ∧
    (∀ reason rows, (testRule db9 1 req9).1 = TestResp.ok reason rows → rows = []) ∧
    (∀ r, db9.rules.find? (fun x => x.id == 1) = Option.some r →
      r.ruleType ≠ RuleType.velocity →
      ∃ reason, (testRule db9 1 req9).1 = TestResp.ok reason []) :=
  backtest_reversed_range_empty db9 1 req9 (by decide)

/-- C10: deleting a rule that has at least one referencing alert is
refused with the alert count, leaving the state unchanged; and the
delete operation preserves resolvability of every alert's rule
reference. -/
theorem deleteRule_blocked_and_refs_resolvable :
    ∀ (db : DB) (rid : Nat),
      ((∃ r ∈ db.rules, r.id = rid) →
        0 < (db.alerts.filter (fun a => a.ruleId == Option.some rid)).length →
        deleteRule db rid =
          (DeleteRuleResp.hasAlerts
            (db.alerts.filter (fun a => a.ruleId == Option.some rid)).length, db)) ∧
      ((∀ a ∈ db.alerts, ∀ rr, a.ruleId = Option.some rr → ∃ r ∈ db.rules, r.id = rr) →
        ∀ a ∈ (deleteRule db rid).2.alerts, ∀ rr, a.ruleId = Option.some rr →
          ∃ r ∈ (deleteRule db rid).2.rules, r.id = rr) := by
  intro db rid
  constructor
  · rintro ⟨r, hr, hrid⟩ hcount
    have hf : (db.rules.find? (fun x => x.id == rid)).isSome = true :=
      List.find?_isSome.mpr ⟨r, hr, by simp [hrid]⟩
    cases hfe : db.rules.find? (fun x => x.id == rid) with
    | none => rw [hfe] at hf; cases hf
    | some r0 =>
        simp only [deleteRule, hfe]
        rw [if_pos hcount]
  · intro hres
    cases hfe : db.rules.find? (fun x => x.id == rid) with
    | none =>
        simp only [deleteRule, hfe]
        exact hres
    | some r0 =>
        simp only [deleteRule, hfe]
        by_cases hcount : 0 < (db.alerts.filter (fun a => a.ruleId == Option.some rid)).length
        · rw [if_pos hcount]
          exact hres
        · rw [if_neg hcount]
          intro a ha rr harr
          rcases hres a ha rr harr with ⟨r, hr, hrr⟩
          have hrrne : rr ≠ rid := by
            intro he
            subst he
            have hnil : (db.alerts.filter (fun x => x.ruleId == Option.some rr)).length = 0 :=
              Nat.eq_zero_of_not_pos hcount
            rw [List.length_eq_zero] at hnil
            have hmem : a ∈ db.alerts.filter (fun x => x.ruleId == Option.some rr) :=
              List.mem_filter.mpr ⟨ha, by simp [harr]⟩
            rw [hnil] at hmem
            cases hmem
          exact ⟨r, List.mem_filter.mpr ⟨hr, by simp [hrr, hrrne]⟩, hrr⟩

/-- Witness for C10: in `dbC10`, rule 1 has one referencing alert, so
deletion is refused with that count and the state is unchanged. -/
theorem deleteRule_blocked_and_refs_resolvable_witness :
    deleteRule dbC10 1 =
      (DeleteRuleResp.hasAlerts
        (dbC10.alerts.filter (fun a => a.ruleId == Option.some 1)).length, dbC10) :=
  (deleteRule_blocked_and_refs_resolvable dbC10 1).1
    ⟨rule6, by decide, by decide⟩ (by decide)

/-- C1 (amended): every successful alert-creation call inserts a fresh
alert row in state `new`; no duplicate check for the (rule, transaction)
pair is performed, so the count of alerts for the pair always grows by
one — also when an alert for the same pair already exists — and there
is no path returning an existing alert with created=false. -/
theorem createAlert_no_dedup_inserts :
    ∀ (db : DB) (req : CreateAlertReq) (userId : Nat),
      (∃ t ∈ db.transactions, t.id = req.transactionId) →
      ∃ a, (createAlert db req userId).1 = CreateAlertResp.created a ∧
        (createAlert db req userId).2.alerts = db.alerts ++ [a] ∧
        a.ruleId = req.ruleId ∧ a.transactionId = req.transactionId ∧
        a.status = AlertStatus.new ∧
        pairCount (createAlert db req userId).2.alerts req.ruleId req.transactionId =
          pairCount db.alerts req.ruleId req.transactionId + 1 := by
  intro db req userId hex
  have hf : (db.transactions.find? (fun t => t.id == req.transactionId)).isSome = true := by
    rcases hex with ⟨t, ht, hid⟩
    exact List.find?_isSome.mpr ⟨t, ht, by simp [hid]⟩
  cases hfe : db.transactions.find? (fun t => t.id == req.transactionId) with
  | none => rw [hfe] at hf; cases hf
  | some t =>
      refine ⟨newAlertOf db req userId t, ?_, ?_, rfl, rfl, rfl, ?_⟩
      · simp only [createAlert, hfe]
      · simp only [createAlert, hfe]
      · simp only [createAlert, hfe]
        simp [pairCount, List.filter_append, newAlertOf]

/-- Counterexample for C1 as stated: after one alert already exists for
the pair (rule 1, transaction 1), a second emission for the same pair
creates a second alert (a fresh row, not the existing one returned with
created=false), so two alerts exist for the pair. -/
theorem createAlert_duplicate_pair_counterexample :
    pairCount dbC1b.alerts (Option.some 1) 1 = 1 ∧
    (createAlert dbC1b reqC1 7).1 = CreateAlertResp.created alertC1second ∧
    pairCount (createAlert dbC1b reqC1 7).2.alerts (Option.some 1) 1 = 2 :=
  ⟨by decide, by decide, by decide⟩

/-- Witness for C1: the amended behaviour at the concrete state that
already holds one alert for the pair. -/
theorem createAlert_no_dedup_inserts_witness :
    ∃ a, (createAlert dbC1b reqC1 7).1 = CreateAlertResp.created a ∧
      (createAlert dbC1b reqC1 7).2.alerts = dbC1b.alerts ++ [a] ∧
      a.ruleId = reqC1.ruleId ∧ a.transactionId = reqC1.transactionId ∧
      a.status = AlertStatus.new ∧
      pairCount (createAlert dbC1b reqC1 7).2.alerts reqC1.ruleId reqC1.transactionId =
        pairCount dbC1b.alerts reqC1.ruleId reqC1.transactionId + 1 :=
  createAlert_no_dedup_inserts dbC1b reqC1 7 ⟨t6, by decide, by decide⟩

/-- C2 (amended): `closed` is not terminal.  The analyst update route
overwrites an alert's status with any requested valid status regardless
of the current one — in particular a closed alert can be moved to any
other status — and the case-linkage paths likewise set a closed alert to
`investigating`. -/
theorem updateAlert_sets_any_status :
    ∀ (db : DB) (id : Nat) (s : AlertStatus),
      (db.alerts.any (fun a => a.id == id)) = true →
      ∃ a2, (updateAlert db id { status := Option.some s }).1 = UpdateAlertResp.updated a2 ∧
        a2.status = s ∧
        ∀ a' ∈ (updateAlert db id { status := Option.some s }).2.alerts,
          a'.id = id → a'.status = s := by
  intro db id s hany
  have hf : (db.alerts.find? (fun a => a.id == id)).isSome = true := by
    rcases List.any_eq_true.mp hany with ⟨a, ha, hpa⟩
    exact List.find?_isSome.mpr ⟨a, ha, hpa⟩
  cases hfe : db.alerts.find? (fun a => a.id == id) with
  | none => rw [hfe] at hf; cases hf
  | some a =>
      refine ⟨{ a with status := s }, ?_, rfl, ?_⟩
      · simp only [updateAlert, hfe]
        rfl
      · intro a' ha' hid
        simp only [updateAlert, hfe] at ha'
        rcases List.mem_map.mp ha' with ⟨x, hx, hxe⟩
        by_cases hxid : (x.id == id) = true
        · rw [if_pos hxid] at hxe
          rw [← hxe]
          rfl
        · rw [if_neg hxid] at hxe
          rw [← hxe] at hid
          exact absurd (by simp [hid]) hxid

/-- Counterexample for C2 as stated: the analyst update operation moves
the closed alert of `dbC2` back to status `new`, so a transition does
leave `closed`. -/
theorem closed_alert_reopened_counterexample :
    alertC2.status = AlertStatus.closed ∧
    (updateAlert dbC2 1 updC2).1 =
      UpdateAlertResp.updated { alertC2 with status := AlertStatus.new } ∧
    ((updateAlert dbC2 1 updC2).2.alerts.map Alert.status) = [AlertStatus.new] :=
  ⟨by decide, by decide, by decide⟩

/-- Witness for C2: the amended behaviour at the concrete closed alert,
requesting status `escalated`. -/
theorem updateAlert_sets_any_status_witness :
    ∃ a2, (updateAlert dbC2 1 { status := Option.some AlertStatus.escalated }).1 =
        UpdateAlertResp.updated a2 ∧
      a2.status = AlertStatus.escalated ∧
      ∀ a' ∈ (updateAlert dbC2 1 { status := Option.some AlertStatus.escalated }).2.alerts,
        a'.id = 1 → a'.status = AlertStatus.escalated :=
  updateAlert_sets_any_status dbC2 1 AlertStatus.escalated (by decide)

/-- C3 (amended): linking an existing alert to an existing case (when
not already linked) always succeeds and sets the alert's status to
`investigating` unconditionally — the route never consults the current
status, so an alert already beyond `new` (including `closed`) is moved
to `investigating` as well. -/
theorem linkAlert_sets_investigating_unconditionally :
    ∀ (db : DB) (caseId alertId : Nat),
      (db.cases.any (fun c => c.id == caseId)) = true →
      (db.alerts.any (fun a => a.id == alertId)) = true →
      db.caseAlerts.contains (caseId, alertId) = false →
      (linkAlertToCase db caseId alertId).1 = LinkResp.linked ∧
      (linkAlertToCase db caseId alertId).2.caseAlerts =
        db.caseAlerts ++ [(caseId, alertId)] ∧
      ∀ a' ∈ (linkAlertToCase db caseId alertId).2.alerts, a'.id = alertId →
        a'.status = AlertStatus.investigating := by
  intro db caseId alertId hcase halert hfresh
  have hfc : (db.cases.find? (fun c => c.id == caseId)).isSome = true := by
    rcases List.any_eq_true.mp hcase with ⟨c, hc, hpc⟩
    exact List.find?_isSome.mpr ⟨c, hc, hpc⟩
  have hfa : (db.alerts.find? (fun a => a.id == alertId)).isSome = true := by
    rcases List.any_eq_true.mp halert with ⟨a, ha, hpa⟩
    exact List.find?_isSome.mpr ⟨a, ha, hpa⟩
  cases hfce : db.cases.find? (fun c => c.id == caseId) with
  | none => rw [hfce] at hfc; cases hfc
  | some c0 =>
      cases hfae : db.alerts.find? (fun a => a.id == alertId) with
      | none => rw [hfae] at hfa; cases hfa
      | some a0 =>
          have hred : linkAlertToCase db caseId alertId =
              (LinkResp.linked,
                { db with
                    caseAlerts := db.caseAlerts ++ [(caseId, alertId)]
                    alerts := setAlertStatus db.alerts alertId AlertStatus.investigating }) := by
            simp only [linkAlertToCase, hfce, hfae]
            rw [if_neg (by rw [hfresh]; simp)]
          rw [hred]
          refine ⟨rfl, rfl, ?_⟩
          intro a' ha' hid
          simp only [setAlertStatus, List.mem_map] at ha'
          rcases ha' with ⟨x, hx, hxe⟩
          by_cases hxid : (x.id == alertId) = true
          · rw [if_pos hxid] at hxe
            rw [← hxe]
          · rw [if_neg hxid] at hxe
            rw [← hxe] at hid
            exact absurd (by simp [hid]) hxid

/-- Counterexample for C3 as stated: linking the closed alert of `dbC3`
to case 1 changes its status to `investigating`, although the claim says
a status beyond `new` is left unchanged. -/
theorem link_closed_alert_counterexample :
    alertC2.status = AlertStatus.closed ∧
    (linkAlertToCase dbC3 1 1).1 = LinkResp.linked ∧
    ((linkAlertToCase dbC3 1 1).2.alerts.map Alert.status) = [AlertStatus.investigating] :=
  ⟨by decide, by decide, by decide⟩

/-- Witness for C3: the amended behaviour at the concrete closed alert
and case of `dbC3`. -/
theorem linkAlert_sets_investigating_unconditionally_witness :
    (linkAlertToCase dbC3 1 1).1 = LinkResp.linked ∧
    (linkAlertToCase dbC3 1 1).2.caseAlerts = dbC3.caseAlerts ++ [(1, 1)] ∧
    ∀ a' ∈ (linkAlertToCase dbC3 1 1).2.alerts, a'.id = 1 →
      a'.status = AlertStatus.investigating :=
  linkAlert_sets_investigating_unconditionally dbC3 1 1 (by decide) (by decide) (by decide)

/-- C4 (amended): case creation with alert ids is all-or-nothing, not
partial-failure.  If any listed alert id does not resolve, the
foreign-key failure rolls the whole transaction back: no case is
created, nothing is linked, and the state is returned unchanged.  Only
when every id resolves (with the ids distinct and the links fresh) is
the case created, with every listed alert linked to it and moved to
`investigating`. -/
theorem createCase_allOrNothing :
    ∀ (db : DB) (req : CreateCaseReq) (userId : Nat) (ids : List Nat),
      req.alertIds = Option.some ids → ids ≠ [] →
      ((∃ aid ∈ ids, ¬ hasAlertId db.alerts aid) →
        createCase db req userId = (CreateCaseResp.rolledBack, db)) ∧
      ((∀ aid ∈ ids, hasAlertId db.alerts aid) → ids.Nodup →
        (∀ aid ∈ ids, (db.nextCaseId, aid) ∉ db.caseAlerts) →
        ∃ db2,
          createCase db req userId = (CreateCaseResp.created (newCaseOf db req userId), db2) ∧
          newCaseOf db req userId ∈ db2.cases ∧
          (∀ aid ∈ ids, (db.nextCaseId, aid) ∈ db2.caseAlerts ∧
            alertStatusOf db2 aid = Option.some AlertStatus.investigating)) := by
  intro db req userId ids hids hne
  have hlen : (ids.length != 0) = true := by
    cases ids with
    | nil => exact absurd rfl hne
    | cons a l => simp
  constructor
  · rintro ⟨aid, hmem, hmiss⟩
    have hmiss1 : ¬ hasAlertId (caseInsertedDB db req userId).alerts aid := hmiss
    have hloop := linkAlertsLoop_none_of_missing ids (caseInsertedDB db req userId)
      (newCaseOf db req userId).id aid hmem hmiss1
    simp only [createCase, hids]
    rw [if_pos hlen, hloop]
  · intro hhas hnodup hfresh
    have hhas1 : ∀ aid ∈ ids, hasAlertId (caseInsertedDB db req userId).alerts aid := hhas
    have hfresh1 : ∀ aid ∈ ids,
        ((newCaseOf db req userId).id, aid) ∉ (caseInsertedDB db req userId).caseAlerts := hfresh
    rcases linkAlertsLoop_success ids (caseInsertedDB db req userId)
        (newCaseOf db req userId).id hhas1 hnodup hfresh1 with
      ⟨db2, hloop, hcases, hlinked, hstatus, hother⟩
    refine ⟨db2, ?_, ?_, ?_⟩
    · simp only [createCase, hids]
      rw [if_pos hlen, hloop]
    · rw [hcases]
      show newCaseOf db req userId ∈ db.cases ++ [newCaseOf db req userId]
      exact List.mem_append_right _ (List.mem_singleton_self _)
    · intro aid hmem
      exact ⟨hlinked aid hmem, hstatus aid hmem⟩

/-- Counterexample for C4 as stated: creating a case over alert ids
[1, 99] where alert 99 does not exist rolls back entirely — the case is
not created and alert 1 is not linked — instead of skipping only the
bad id while still creating the case. -/
theorem createCase_missing_alert_counterexample :
    (dbC4.alerts.all (fun a => a.id != 99)) = true ∧
    createCase dbC4 reqC4 7 = (CreateCaseResp.rolledBack, dbC4) ∧
    (createCase dbC4 reqC4 7).2.cases = [] :=
  ⟨by decide, by decide, by decide⟩

/-- Witness for C4: the rollback branch at the concrete request with a
nonexistent alert id, and the success branch at a fully resolvable
request. -/
theorem createCase_allOrNothing_witness :
    createCase dbC4 reqC4 7 = (CreateCaseResp.rolledBack, dbC4) ∧
    ∃ db2,
      createCase dbC4 reqC4ok 7 = (CreateCaseResp.created (newCaseOf dbC4 reqC4ok 7), db2) ∧
      newCaseOf dbC4 reqC4ok 7 ∈ db2.cases ∧
      (∀ aid ∈ [1], (dbC4.nextCaseId, aid) ∈ db2.caseAlerts ∧
        alertStatusOf db2 aid = Option.some AlertStatus.investigating) :=
  ⟨(createCase_allOrNothing dbC4 reqC4 7 [1, 99] rfl (by decide)).1
      ⟨99, by decide, by decide⟩,
   (createCase_allOrNothing dbC4 reqC4ok 7 [1] rfl (by decide)).2
      (by decide) (by decide) (by decide)⟩

/-- C5 (amended): rule conditions are validated against one shared
schema whose fields are all optional, so the validation outcome does not
depend on the declared rule type, and missing type-specific fields are
not rejected: a Location rule with no blocked-country set is accepted at
creation and stored active. -/
theorem rule_validation_type_independent :
    (∀ (req : CreateRuleReq) (t1 t2 : String),
      (parseRuleType t1).isSome = true → (parseRuleType t2).isSome = true →
      ruleReqValid { req with ruleType := t1 } = ruleReqValid { req with ruleType := t2 }) ∧
    (∀ (db : DB) (nm : String), 3 ≤ nm.length → nm.length ≤ 100 →
      (∀ r ∈ db.rules, r.name ≠ nm) →
      createRule db (locationReqOf nm) =
        (CreateRuleResp.created (locationRuleOf db nm),
          { db with rules := db.rules ++ [locationRuleOf db nm],
                    nextRuleId := db.nextRuleId + 1 }) ∧
      (locationRuleOf db nm).conditions.blockedCountries = Option.none ∧
      (locationRuleOf db nm).isActive = true) := by
  constructor
  · intro req t1 t2 h1 h2
    simp only [ruleReqValid]
    rw [h1, h2]
  · intro db nm h3 h100 hun
    have hvalid : ruleReqValid (locationReqOf nm) = true := by
      simp only [ruleReqValid, locationReqOf]
      rw [decide_eq_true h3, decide_eq_true h100]
      decide
    have hvalid2 := hvalid
    simp only [locationReqOf] at hvalid2
    have hname : (db.rules.any (fun r => r.name == nm)) = false := by
      rw [List.any_eq_false]
      intro r hr
      simp [hun r hr]
    have hparse : parseRuleType "location" = Option.some RuleType.location := by decide
    refine ⟨?_, rfl, rfl⟩
    simp [createRule, hvalid2, hname, locationReqOf, locationRuleOf, hparse]

/-- Counterexample for C5 as stated: a Location rule with an empty
condition set (no blocked-country list) is not rejected at creation —
the route accepts it and stores it active. -/
theorem location_rule_without_countries_accepted :
    reqC5.conditions.blockedCountries = Option.none ∧
    createRule {} reqC5 =
      (CreateRuleResp.created ruleC5, { rules := [ruleC5], nextRuleId := 2 }) ∧
    ruleC5.isActive = true :=
  ⟨by decide, by decide, by decide⟩

/-- Witness for C5: the type-independence of validation at a concrete
request, and the acceptance of the empty-condition location rule on an
empty catalog. -/
theorem rule_validation_type_independent_witness :
    ruleReqValid { reqC5 with ruleType := "amount" } =
      ruleReqValid { reqC5 with ruleType := "velocity" } ∧
    (createRule {} (locationReqOf "Loc") =
      (CreateRuleResp.created (locationRuleOf {} "Loc"),
        { rules := [locationRuleOf {} "Loc"], nextRuleId := 2 }) ∧
      (locationRuleOf {} "Loc").conditions.blockedCountries = Option.none ∧
      (locationRuleOf {} "Loc").isActive = true) :=
  ⟨rule_validation_type_independent.1 reqC5 "amount" "velocity" (by decide) (by decide),
   rule_validation_type_independent.2 {} "Loc" (by decide) (by decide) (by simp)⟩

/-- C6 (amended): the backtest predicate for an Amount rule holds
exactly when the amount respects each present (and nonzero, per the
implementation's truthiness check) bound and the currency equals the
rule currency when one is set; the rule's `transactionTypes` list is
not consulted.  In particular, with minAmount 10000 and currency NZD:
amount 10000 NZD matches, amount 9999.99 NZD does not, and a
different-currency transaction never matches. -/
theorem amount_match_semantics :
    (∀ (c : RuleConditions) (t : Transaction),
      amountCond c t = true ↔ amountSpecMatch c t) ∧
    (∀ (c : RuleConditions) (t : Transaction) (ty : String),
      amountCond c { t with transactionType := ty } = amountCond c t) ∧
    (∀ t : Transaction, t.amount = 10000 → t.currency = "NZD" →
      amountCond nzdConditions t = true) ∧
    (∀ t : Transaction, t.amount = 999999/100 → t.currency = "NZD" →
      amountCond nzdConditions t = false) ∧
    (∀ t : Transaction, t.currency ≠ "NZD" → amountCond nzdConditions t = false) := by
  have hA : ∀ (c : RuleConditions) (t : Transaction),
      amountCond c t = true ↔ amountSpecMatch c t := by
    intro c t
    simp only [amountCond, Bool.and_eq_true, amountSpecMatch]
    rw [truthy_min_iff c.minAmount t.amount, truthy_max_iff c.maxAmount t.amount,
      truthy_currency_iff c.currency t.currency]
    tauto
  refine ⟨hA, fun c t ty => rfl, ?_, ?_, ?_⟩
  · intro t ha hc
    refine (hA nzdConditions t).mpr ⟨?_, ?_, ?_⟩
    · intro m hm hm0
      simp only [nzdConditions] at hm
      cases hm
      rw [ha]
    · intro m hm hm0
      simp only [nzdConditions] at hm
      cases hm
    · intro cur hcur hcne
      simp only [nzdConditions] at hcur
      cases hcur
      exact hc
  · intro t ha hc
    rw [Bool.eq_false_iff]
    intro habs
    rcases (hA nzdConditions t).mp habs with ⟨hmin, _, _⟩
    have h1 : (10000 : ℚ) ≤ t.amount := hmin 10000 rfl (by norm_num)
    rw [ha] at h1
    norm_num at h1
  · intro t hc
    rw [Bool.eq_false_iff]
    intro habs
    rcases (hA nzdConditions t).mp habs with ⟨_, _, hcur⟩
    exact hc (hcur "NZD" rfl (by decide))

/-- Counterexample for C6 as stated: the backtest of an Amount rule
carrying `transactionTypes = ["deposit"]` matches a transfer — the
type conjunct of the claim is not applied by the code. -/
theorem amount_rule_ignores_transactionTypes :
    rule6.conditions.transactionTypes = Option.some ["deposit"] ∧
    t6.transactionType = "transfer" ∧
    (testRule db6 1 req6).1 = TestResp.ok "Amount threshold exceeded" [t6] :=
  ⟨by decide, by decide, by decide⟩

/-- Witness for C6: the three concrete evaluations of the amended
amount predicate. -/
theorem amount_match_semantics_witness :
    amountCond nzdConditions t10000 = true ∧
    amountCond nzdConditions t9999 = false ∧
    amountCond nzdConditions tUsd = false :=
  ⟨amount_match_semantics.2.2.1 t10000 rfl rfl,
   amount_match_semantics.2.2.2.1 t9999 rfl rfl,
   amount_match_semantics.2.2.2.2 tUsd (by decide)⟩

/-- C7 (amended): in backtesting, a transaction matches a Frequency rule
exactly when the total count of transactions sharing its source account
within the whole outer [startDate, endDate] range reaches the threshold
(`transactionCount`, defaulting to 10); the rule's own `timeWindow` and
`channels` conditions are not consulted at all. -/
theorem frequency_backtest_range_aggregate :
    (∀ (txns : List Transaction) (s e : Int) (thr : Nat) (t : Transaction),
      t ∈ frequencyRows txns s e thr ↔
        (t ∈ txns ∧ inDateRange s e t = true ∧
          thr ≤ accountTxnCount txns s e t.fromAccountId)) ∧
    (∀ (db : DB) (r : Rule) (req : TestReq) (w : Option String) (ch : Option (List String)),
      r.ruleType = RuleType.frequency →
      ruleRows db { r with conditions :=
          { r.conditions with timeWindow := w, channels := ch } } req = ruleRows db r req) := by
  constructor
  · intro txns s e thr t
    simp only [frequencyRows, List.mem_filter, Bool.and_eq_true]
    constructor
    · rintro ⟨ht, hrange, hcont⟩
      refine ⟨ht, hrange, ?_⟩
      have hmem : t.fromAccountId ∈ frequentAccounts txns s e thr := List.elem_iff.mp hcont
      have h2 := (List.mem_filter.mp hmem).2
      exact of_decide_eq_true h2
    · rintro ⟨ht, hrange, hcnt⟩
      refine ⟨ht, hrange, ?_⟩
      refine List.elem_iff.mpr (List.mem_filter.mpr ⟨?_, decide_eq_true hcnt⟩)
      rw [List.mem_dedup]
      exact List.mem_map.mpr ⟨t, List.mem_filter.mpr ⟨ht, hrange⟩, rfl⟩
  · intro db r req w ch hrt
    obtain ⟨rid0, nm, rt, conds, sev, act⟩ := r
    cases hrt
    rfl

/-- Counterexample for C7 as stated: under a 24h-window rule requiring 2
transactions, the backtest matches both transactions of an account whose
two transactions lie 25 hours apart — each has only 1 transaction in its
trailing 24h window, so per the claim neither should match. -/
theorem frequency_backtest_ignores_window :
    rule7.conditions.timeWindow = Option.some "24h" ∧
    rule7.conditions.transactionCount = Option.some 2 ∧
    tLate.processedAt - tEarly.processedAt = 25 ∧
    specTrailingCount db7.transactions tLate 24 = 1 ∧
    specTrailingCount db7.transactions tEarly 24 = 1 ∧
    (testRule db7 1 { startDate := 0, endDate := 100, limit := 10 }).1 =
      TestResp.ok "High frequency transactions" [tLate, tEarly] :=
  ⟨by decide, by decide, by decide, by decide, by decide, by decide⟩

/-- Witness for C7: the timeWindow/channels independence at the concrete
frequency rule of `db7`. -/
theorem frequency_backtest_range_aggregate_witness :
    ruleRows db7 { rule7 with conditions :=
        { rule7.conditions with timeWindow := Option.some "7d",
                                channels := Option.some ["wire"] } }
      { startDate := 0, endDate := 100, limit := 10 } =
      ruleRows db7 rule7 { startDate := 0, endDate := 100, limit := 10 } :=
  frequency_backtest_range_aggregate.2 db7 rule7
    { startDate := 0, endDate := 100, limit := 10 }
    (Option.some "7d") (Option.some ["wire"]) rfl

end AFTMS
